import Mathlib

/-!
Shallow embedding of `deskconn/components/brightness.py`.

The embedding models the two stateful pieces of the repository:

* `_BrightnessControl.set_brightness` (the cancellable stepped ramp): Python
  integers become `ℤ`, percentages become `ℚ` (Python's exact numeric value;
  `math.modf((a - b) / 25)` is modelled by Nat division/remainder, which is the
  exact-arithmetic reading of the float computation), device writes become a
  trace, the shared `change_in_progress` flag read by the loop is modelled by a
  countdown `cancel : Option ℕ` (`some k` means the first `k` flag checks read
  true and every later check reads false, i.e. a newer concurrent call cleared
  the flag after the k-th check), and a failing device write is modelled by a
  countdown `failAt : Option ℕ` (`some j` means the j-th write attempt, counted
  from 0, raises an I/O error).

* `ScreenBrightnessComponent.publish_brightness_changed` (the inotify watcher):
  explicit state record threaded through a handler returning the optionally
  published notification.
-/

namespace DeskConn

/-- Python `int()` applied to the exact fraction `a / b` with `b > 0`:
truncation toward zero. Since `Int` division `/` here rounds toward negative
infinity for a positive divisor, the negative-numerator case is negated twice. -/
def intFracTrunc (a b : ℤ) : ℤ := if 0 ≤ a then a / b else -(-a / b)

/-- Module constant `BRIGHTNESS_STEP = 25` (raw units per ramp step). -/
def BRIGHTNESS_STEP : ℕ := 25

/-- Numeric path of `validate_and_sanitize_brightness_value` (lines 51-58):
clamp `value` into `[1, 100]`, returning out-of-range input's nearest bound. -/
def validate_and_sanitize_brightness_value (value : ℚ) : ℚ :=
  if value < 1 then 1 else if value > 100 then 100 else value

/-- `percent_to_internal` (lines 60-62): `int((validated / 100) * max_brightness)`.
The exact value of `(validated / 100) * max_brightness` is the fraction
`(validated.num * max) / (validated.den * 100)`, to which Python `int()` applies
truncation toward zero. -/
def percent_to_internal (maxRaw : ℤ) (percent : ℚ) : ℤ :=
  let v := validate_and_sanitize_brightness_value percent
  intFracTrunc (v.num * maxRaw) ((v.den : ℤ) * 100)

/-- A Python value passed as the `value` argument: an `int`, a `float`
(exact rational reading), or any non-numeric object. -/
inductive PyValue where
  | int (n : ℤ)
  | float (q : ℚ)
  | other
deriving DecidableEq, Repr

/-- Numeric reading of a `PyValue`; `none` for non-numeric input, on which the
`assert isinstance(...)` at line 52 fires. -/
def toRat? : PyValue → Option ℚ
  | .int n => some (n : ℚ)
  | .float q => some q
  | .other => none

/-- `validate_and_sanitize_brightness_value` including the `assert` at line 52:
an assertion failure is `none`. -/
def validate_checked (v : PyValue) : Option ℚ :=
  (toRat? v).map validate_and_sanitize_brightness_value

/-- `percent_to_internal` including the assertion on non-numeric input. -/
def percent_to_internal_checked (maxRaw : ℤ) (v : PyValue) : Option ℤ :=
  (toRat? v).map (percent_to_internal maxRaw)

/-- Which source line performed a device write: a full-step write (line 94/105),
the fractional-remainder write (line 98/109), or the final corrective write
(line 113). -/
inductive WriteKind where
  | step
  | frac
  | corr
deriving DecidableEq, Repr

/-- One device write: which write it was and the raw value written. -/
abbrev Write := WriteKind × ℤ

/-- Current value of the `change_in_progress` flag under the countdown model:
`none` means no concurrent call ever clears it, `some k` reads true iff `k > 0`. -/
def flagTrue : Option ℕ → Bool
  | none => true
  | some k => decide (0 < k)

/-- Advance a countdown by one event. -/
def tick : Option ℕ → Option ℕ
  | none => none
  | some k => some (k - 1)

/-- Whether the current write attempt raises (`failAt` countdown has reached 0). -/
def failNow : Option ℕ → Bool
  | some 0 => true
  | _ => false

/-- The expected trace of `k` full-step writes starting from raw value `b`,
each advancing by `step`. -/
def stepWrites (step b : ℤ) : ℕ → List Write
  | 0 => []
  | k + 1 => (WriteKind.step, b + step) :: stepWrites step (b + step) k

/-- The `for i in range(int(full_steps))` loop of `set_brightness`
(lines 90-95 / 101-106): each iteration checks the flag (breaking if cleared),
advances the local `brightness` by `step`, and writes it (which may raise).
Returns the write trace, the local `brightness`, the remaining `cancel` and
`failAt` countdowns, and whether a write raised. -/
def rampLoop (step : ℤ) : ℕ → ℤ → Option ℕ → Option ℕ → List Write →
    List Write × ℤ × Option ℕ × Option ℕ × Bool
  | 0, b, cancel, failAt, ws => (ws, b, cancel, failAt, false)
  | fuel + 1, b, cancel, failAt, ws =>
    if flagTrue cancel then
      let b1 := b + step
      if failNow failAt then (ws, b1, cancel, failAt, true)
      else rampLoop step fuel b1 (tick cancel) (tick failAt) (ws ++ [(WriteKind.step, b1)])
    else (ws, b, cancel, failAt, false)

/-- Step direction of the ramp: `+1` when `brightness_requested > brightness`
(line 88), else `-1` (the `else` branch, which also covers equality). -/
def dirOf (requested current : ℤ) : ℤ := if current < requested then 1 else -1

/-- Absolute distance `|requested - current|`, the numerator of
`math.modf((...) / BRIGHTNESS_STEP)` in both branches. -/
def deltaOf (requested current : ℤ) : ℕ :=
  (if current < requested then requested - current else current - requested).toNat

/-- `int(full_steps)`: the integer part of `delta / 25`. -/
def fullStepsOf (requested current : ℤ) : ℕ := deltaOf requested current / BRIGHTNESS_STEP

/-- `int(decimal_steps * BRIGHTNESS_STEP)`: under exact arithmetic the
fractional part of `delta / 25` times `25` is `delta % 25`. -/
def remOf (requested current : ℤ) : ℤ := (deltaOf requested current % BRIGHTNESS_STEP : ℕ)

/-- Result of one `set_brightness` call: the successful device writes in order,
whether the call exited by raising a write error, and the value of
`change_in_progress` when the call exits. -/
structure Outcome where
  writes : List Write
  errored : Bool
  flagAtExit : Bool
deriving DecidableEq, Repr

/-- `_BrightnessControl.set_brightness` (lines 80-115). `current` is the raw
value read from the device at line 85. The two symmetric branches of the
source are unified through `dirOf`/`deltaOf`. After the loop, the
fractional-remainder write (lines 96-98 / 107-109) is guarded by the flag;
the final corrective write (lines 111-113) is not guarded and runs whenever
the local `brightness` differs from `brightness_requested`. On a raised write
error the function exits at once; line 115 (`change_in_progress = False`)
is then never reached, so the flag keeps its current value. -/
def set_brightness_run (maxRaw : ℤ) (percent : ℚ) (current : ℤ)
    (cancel failAt : Option ℕ) : Outcome :=
  let requested := percent_to_internal maxRaw percent
  let dir := dirOf requested current
  let r := rampLoop (dir * (BRIGHTNESS_STEP : ℤ)) (fullStepsOf requested current)
      current cancel failAt []
  let ws := r.1
  let b := r.2.1
  let cancel1 := r.2.2.1
  let failAt1 := r.2.2.2.1
  let err := r.2.2.2.2
  if err then ⟨ws, true, flagTrue cancel1⟩
  else if flagTrue cancel1 then
    let b1 := b + dir * remOf requested current
    if failNow failAt1 then ⟨ws, true, flagTrue cancel1⟩
    else
      let ws1 := ws ++ [(WriteKind.frac, b1)]
      if b1 = requested then ⟨ws1, false, false⟩
      else if failNow (tick failAt1) then ⟨ws1, true, flagTrue (tick cancel1)⟩
      else ⟨ws1 ++ [(WriteKind.corr, requested)], false, false⟩
  else
    if b = requested then ⟨ws, false, false⟩
    else if failNow failAt1 then ⟨ws, true, flagTrue cancel1⟩
    else ⟨ws ++ [(WriteKind.corr, requested)], false, false⟩

/-- `set_brightness` including the assertion inside `percent_to_internal`
(line 81): a non-numeric percentage raises before any device access. -/
def set_brightness_checked (maxRaw : ℤ) (v : PyValue) (current : ℤ)
    (cancel failAt : Option ℕ) : Option Outcome :=
  (toRat? v).map (fun q => set_brightness_run maxRaw q current cancel failAt)

/-- The watcher state of `ScreenBrightnessComponent` (lines 127-130):
`_publisher_id`, `_requested_value_internal`, `_reset_publisher` (assigned in
`__init__` and never read elsewhere) and `_last_value`. -/
structure WatcherState where
  publisher_id : Option ℤ
  requested_value_internal : ℤ
  reset_publisher : Bool
  last_value : ℤ
deriving DecidableEq, Repr

/-- The state set up by `__init__`. -/
def initWatcherState : WatcherState :=
  { publisher_id := none, requested_value_internal := -1,
    reset_publisher := false, last_value := -1 }

/-- Percentage computed by the watcher at line 174:
`int((current_value / max_brightness) * 100)`, whose exact value is the
fraction `(current_value * 100) / max_brightness` truncated toward zero. -/
def rawToPercent (maxRaw v : ℤ) : ℤ := intFracTrunc (v * 100) maxRaw

/-- `actually_set_brightness`'s bookkeeping (lines 155-157): record the
requesting actor and the converted target before the ramp runs. -/
def record_request (maxRaw : ℤ) (s : WatcherState) (percent : ℚ)
    (pub_id : Option ℤ) : WatcherState :=
  { s with publisher_id := pub_id,
           requested_value_internal := percent_to_internal maxRaw percent }

/-- `publish_brightness_changed` (lines 163-183) applied to one observed raw
value: returns the updated state and the published notification
`(percentage, publisher_id)`, or `none` when the observation is suppressed as
a duplicate of `_last_value`. -/
def publish_brightness_changed (maxRaw : ℤ) (s : WatcherState)
    (current_value : ℤ) : WatcherState × Option (ℤ × Option ℤ) :=
  if current_value = s.last_value then (s, none)
  else
    let notif := (rawToPercent maxRaw current_value, s.publisher_id)
    let s1 := if current_value = s.requested_value_internal
      then { s with publisher_id := none } else s
    ({ s1 with last_value := current_value }, some notif)

/-- Fold `publish_brightness_changed` over a sequence of observed raw values,
collecting every published notification in order. -/
def processAll (maxRaw : ℤ) (s : WatcherState) :
    List ℤ → WatcherState × List (ℤ × Option ℤ)
  | [] => (s, [])
  | v :: vs =>
    let r1 := publish_brightness_changed maxRaw s v
    let r2 := processAll maxRaw r1.1 vs
    (r2.1, r1.2.toList ++ r2.2)

/-- Moving `deltaOf` raw units in direction `dirOf` lands exactly on the
requested value. -/
lemma dir_mul_delta (requested current : ℤ) :
    current + dirOf requested current * (deltaOf requested current : ℤ) = requested := by
  by_cases h : current < requested
  · simp only [dirOf, deltaOf, if_pos h]; omega
  · simp only [dirOf, deltaOf, if_neg h]; omega

/-- Full steps plus the fractional remainder reconstitute the whole distance. -/
lemma ramp_target (requested current : ℤ) :
    current + dirOf requested current * (BRIGHTNESS_STEP : ℤ) *
        (fullStepsOf requested current : ℤ) +
      dirOf requested current * remOf requested current = requested := by
  have h := dir_mul_delta requested current
  have h2 : (BRIGHTNESS_STEP : ℤ) * (fullStepsOf requested current : ℤ) +
      remOf requested current = (deltaOf requested current : ℤ) := by
    simp only [fullStepsOf, remOf, BRIGHTNESS_STEP]
    omega
  calc current + dirOf requested current * (BRIGHTNESS_STEP : ℤ) *
          (fullStepsOf requested current : ℤ) +
        dirOf requested current * remOf requested current
      = current + dirOf requested current * ((BRIGHTNESS_STEP : ℤ) *
          (fullStepsOf requested current : ℤ) + remOf requested current) := by ring
    _ = current + dirOf requested current * (deltaOf requested current : ℤ) := by rw [h2]
    _ = requested := h

/-- The trace of `k` step writes has length `k`. -/
lemma stepWrites_length (step : ℤ) (k : ℕ) : ∀ b, (stepWrites step b k).length = k := by
  induction k with
  | zero => intro b; rfl
  | succ n ih => intro b; simp [stepWrites, ih]

/-- The flag check of a live countdown reads true. -/
lemma flagTrue_some_succ (k : ℕ) : flagTrue (some (k + 1)) = true := by simp [flagTrue]

/-- The flag check of an exhausted countdown reads false. -/
lemma flagTrue_some_zero : flagTrue (some 0) = false := rfl

/-- A pending failure countdown does not fail yet. -/
lemma failNow_some_succ (j : ℕ) : failNow (some (j + 1)) = false := rfl

/-- An uncancelled, unfailing loop performs all its step writes. -/
lemma rampLoop_none (step : ℤ) (fuel : ℕ) : ∀ (b : ℤ) (ws : List Write),
    rampLoop step fuel b none none ws =
      (ws ++ stepWrites step b fuel, b + step * fuel, none, none, false) := by
  induction fuel with
  | zero => intro b ws; simp [rampLoop, stepWrites]
  | succ n ih =>
    intro b ws
    simp only [rampLoop, flagTrue, failNow, tick, if_true]
    rw [ih]
    simp only [stepWrites, List.append_assoc, List.singleton_append, Prod.mk.injEq,
      Bool.false_eq_true, if_false]
    and_intros <;> first | rfl | trivial | (push_cast ; ring) | (congr 1 ; omega) | omega

/-- A loop whose flag is cleared after `k ≤ fuel` checks performs exactly the
first `k` step writes and then breaks. -/
lemma rampLoop_cancelled (step : ℤ) (fuel : ℕ) :
    ∀ (k : ℕ), k ≤ fuel → ∀ (b : ℤ) (ws : List Write),
    rampLoop step fuel b (some k) none ws =
      (ws ++ stepWrites step b k, b + step * k, some 0, none, false) := by
  induction fuel with
  | zero =>
    intro k hk b ws
    obtain rfl : k = 0 := Nat.le_zero.mp hk
    simp [rampLoop, stepWrites]
  | succ n ih =>
    intro k hk b ws
    match k with
    | 0 => simp [rampLoop, flagTrue_some_zero, stepWrites]
    | k + 1 =>
      simp only [rampLoop, flagTrue_some_succ, failNow, tick, Nat.succ_sub_one, if_true]
      rw [ih k (by omega)]
      simp only [stepWrites, List.append_assoc, List.singleton_append, Prod.mk.injEq,
        Bool.false_eq_true, if_false]
      and_intros <;> first | rfl | trivial | (push_cast ; ring) | (congr 1 ; omega) | omega

/-- A loop whose `j`-th write attempt fails, with `j < fuel`, performs the
first `j` step writes and then exits by the error. -/
lemma rampLoop_fail (step : ℤ) (fuel : ℕ) :
    ∀ (j : ℕ), j < fuel → ∀ (b : ℤ) (ws : List Write),
    rampLoop step fuel b none (some j) ws =
      (ws ++ stepWrites step b j, b + step * (j + 1), none, some 0, true) := by
  induction fuel with
  | zero => intro j hj; exact absurd hj (Nat.not_lt_zero j)
  | succ n ih =>
    intro j hj b ws
    match j with
    | 0 =>
      simp only [rampLoop, flagTrue, failNow, if_true, stepWrites, Prod.mk.injEq]
      and_intros <;> first | rfl | trivial | simp | (push_cast ; ring) | (congr 1 ; omega) | omega
    | j + 1 =>
      simp only [rampLoop, flagTrue, failNow_some_succ, tick, Nat.succ_sub_one, if_true]
      rw [ih j (by omega)]
      simp only [stepWrites, List.append_assoc, List.singleton_append, Prod.mk.injEq,
        Bool.false_eq_true, if_false]
      and_intros <;> first | rfl | trivial | (push_cast ; ring) | (congr 1 ; omega) | omega

/-- A loop whose write-failure countdown exceeds its fuel completes normally,
leaving the countdown decremented by the number of writes performed. -/
lemma rampLoop_fail_late (step : ℤ) (fuel : ℕ) :
    ∀ (j : ℕ), fuel ≤ j → ∀ (b : ℤ) (ws : List Write),
    rampLoop step fuel b none (some j) ws =
      (ws ++ stepWrites step b fuel, b + step * fuel, none, some (j - fuel), false) := by
  induction fuel with
  | zero => intro j hj b ws; simp [rampLoop, stepWrites]
  | succ n ih =>
    intro j hj b ws
    match j with
    | 0 => exact absurd hj (by omega)
    | j + 1 =>
      simp only [rampLoop, flagTrue, failNow_some_succ, tick, Nat.succ_sub_one, if_true]
      rw [ih j (by omega)]
      simp only [stepWrites, List.append_assoc, List.singleton_append, Prod.mk.injEq,
        Bool.false_eq_true, if_false]
      and_intros <;> first | rfl | trivial | (push_cast ; ring) | (congr 1 ; omega) | omega

/-- A call with no concurrent cancellation and no write failure performs all
full-step writes and then the fractional write, which lands exactly on the
requested value, so the guarded corrective write is skipped. -/
lemma set_brightness_run_none (maxRaw : ℤ) (percent : ℚ) (current : ℤ) :
    set_brightness_run maxRaw percent current none none =
      ⟨stepWrites (dirOf (percent_to_internal maxRaw percent) current * (BRIGHTNESS_STEP : ℤ))
          current (fullStepsOf (percent_to_internal maxRaw percent) current) ++
        [(WriteKind.frac, percent_to_internal maxRaw percent)], false, false⟩ := by
  have hb := ramp_target (percent_to_internal maxRaw percent) current
  simp only [set_brightness_run, rampLoop_none, List.nil_append]
  simp only [flagTrue, failNow, Prod.fst, Prod.snd]
  simp only [hb]
  simp

/-- A call cancelled after `k` completed steps (with `k` at most the full step
count) performs exactly those `k` step writes, skips the fractional write, and
then performs the unguarded corrective write whenever the stepped value
differs from the requested value. -/
lemma set_brightness_run_cancelled (maxRaw : ℤ) (percent : ℚ) (current : ℤ) (k : ℕ)
    (hk : k ≤ fullStepsOf (percent_to_internal maxRaw percent) current) :
    set_brightness_run maxRaw percent current (some k) none =
      ⟨stepWrites (dirOf (percent_to_internal maxRaw percent) current * (BRIGHTNESS_STEP : ℤ))
          current k ++
        (if current + dirOf (percent_to_internal maxRaw percent) current *
            (BRIGHTNESS_STEP : ℤ) * k = percent_to_internal maxRaw percent then []
         else [(WriteKind.corr, percent_to_internal maxRaw percent)]), false, false⟩ := by
  simp only [set_brightness_run, rampLoop_cancelled _ _ _ hk, List.nil_append]
  simp only [flagTrue_some_zero, failNow, Prod.fst, Prod.snd]
  by_cases h : current + dirOf (percent_to_internal maxRaw percent) current *
      (BRIGHTNESS_STEP : ℤ) * (k : ℤ) = percent_to_internal maxRaw percent
  · simp [h]
  · simp [h]

/-- A call whose `j`-th write attempt fails, with `j` at most the full step
count, performs exactly the first `j` step writes, exits by the error, and
leaves the flag set. -/
lemma set_brightness_run_err (maxRaw : ℤ) (percent : ℚ) (current : ℤ) (j : ℕ)
    (hj : j ≤ fullStepsOf (percent_to_internal maxRaw percent) current) :
    set_brightness_run maxRaw percent current none (some j) =
      ⟨stepWrites (dirOf (percent_to_internal maxRaw percent) current * (BRIGHTNESS_STEP : ℤ))
          current j, true, true⟩ := by
  rcases Nat.lt_or_ge j (fullStepsOf (percent_to_internal maxRaw percent) current) with h | h
  · simp only [set_brightness_run, rampLoop_fail _ _ _ h, List.nil_append]
    simp [flagTrue]
  · obtain rfl : j = fullStepsOf (percent_to_internal maxRaw percent) current := by omega
    simp only [set_brightness_run, rampLoop_fail_late _ _ _ (le_refl _), List.nil_append]
    simp [flagTrue, failNow, Nat.sub_self]

/-- A call whose write-failure countdown exceeds the full step count never
fails: the fractional write already lands on the requested value and the
corrective write is skipped, so no further write attempt is made. -/
lemma set_brightness_run_fail_late (maxRaw : ℤ) (percent : ℚ) (current : ℤ) (j : ℕ)
    (hj : fullStepsOf (percent_to_internal maxRaw percent) current < j) :
    set_brightness_run maxRaw percent current none (some j) =
      ⟨stepWrites (dirOf (percent_to_internal maxRaw percent) current * (BRIGHTNESS_STEP : ℤ))
          current (fullStepsOf (percent_to_internal maxRaw percent) current) ++
        [(WriteKind.frac, percent_to_internal maxRaw percent)], false, false⟩ := by
  have hb := ramp_target (percent_to_internal maxRaw percent) current
  simp only [set_brightness_run, rampLoop_fail_late _ _ _ (le_of_lt hj), List.nil_append]
  simp only [flagTrue, Prod.fst, Prod.snd]
  have hfail : failNow (some (j - fullStepsOf (percent_to_internal maxRaw percent) current))
      = false := by
    have : j - fullStepsOf (percent_to_internal maxRaw percent) current ≠ 0 := by omega
    cases hc : j - fullStepsOf (percent_to_internal maxRaw percent) current with
    | zero => exact absurd hc this
    | succ m => exact failNow_some_succ m
  simp only [hfail]
  simp only [hb]
  simp

/-- C1: for every `set_brightness(p)` call that is not cancelled by a newer
concurrent call and in which no device write fails, the last value written to
the device equals `percent_to_internal(p)` exactly, regardless of step
rounding. -/
theorem set_brightness_converges (maxRaw : ℤ) (percent : ℚ) (current : ℤ) :
    ((set_brightness_run maxRaw percent current none none).writes.map Prod.snd).getLast? =
      some (percent_to_internal maxRaw percent) := by
  rw [set_brightness_run_none]
  simp [List.getLast?_concat]

/-- C2, counterexample: a run with target 1000 starting at 0 that is cancelled
after 2 completed steps still performs a final corrective write of its own
target; the device is left at 1000, not at the last completed step value 50. -/
theorem set_brightness_cancelled_counterexample :
    (set_brightness_run 1000 100 0 (some 2) none).writes =
      [(WriteKind.step, 25), (WriteKind.step, 50), (WriteKind.corr, 1000)] ∧
    ((set_brightness_run 1000 100 0 (some 2) none).writes.map Prod.snd).getLast? ≠
      some 50 := by decide

/-- C2, amended: a run cancelled after `k` completed full steps performs no
further step writes and no fractional write, but the unguarded final
corrective write to that run's own target still occurs whenever the stepped
value differs from the target. -/
theorem set_brightness_cancelled_trace (maxRaw : ℤ) (percent : ℚ) (current : ℤ) (k : ℕ)
    (hk : k ≤ fullStepsOf (percent_to_internal maxRaw percent) current) :
    (set_brightness_run maxRaw percent current (some k) none).writes =
      stepWrites (dirOf (percent_to_internal maxRaw percent) current * (BRIGHTNESS_STEP : ℤ))
        current k ++
      (if current + dirOf (percent_to_internal maxRaw percent) current *
          (BRIGHTNESS_STEP : ℤ) * k = percent_to_internal maxRaw percent then []
       else [(WriteKind.corr, percent_to_internal maxRaw percent)]) := by
  rw [set_brightness_run_cancelled _ _ _ _ hk]

/-- C2, amended, witness at a concrete input. -/
theorem set_brightness_cancelled_trace_witness :
    1 ≤ fullStepsOf (percent_to_internal 1000 100) 0 ∧
    (set_brightness_run 1000 100 0 (some 1) none).writes =
      stepWrites (dirOf (percent_to_internal 1000 100) 0 * (BRIGHTNESS_STEP : ℤ)) 0 1 ++
      (if (0 : ℤ) + dirOf (percent_to_internal 1000 100) 0 *
          (BRIGHTNESS_STEP : ℤ) * 1 = percent_to_internal 1000 100 then []
       else [(WriteKind.corr, percent_to_internal 1000 100)]) :=
  ⟨by decide, set_brightness_cancelled_trace 1000 100 0 1 (by decide)⟩

/-- C3, counterexample: when the second device write of the ramp raises, the
call exits by the error but `change_in_progress` is still true (line 115 is
never reached; there is no try/finally). -/
theorem set_brightness_flag_counterexample :
    (set_brightness_run 1000 100 0 none (some 1)).errored = true ∧
    (set_brightness_run 1000 100 0 none (some 1)).flagAtExit = true := by decide

/-- C3, amended: a device-write error mid-ramp propagates to the caller, the
run performs exactly the writes preceding the failing attempt (no retry), and
`change_in_progress` remains TRUE when the call exits via the error. -/
theorem set_brightness_write_failure (maxRaw : ℤ) (percent : ℚ) (current : ℤ) (j : ℕ)
    (h : (set_brightness_run maxRaw percent current none (some j)).errored = true) :
    (set_brightness_run maxRaw percent current none (some j)).writes.length = j ∧
    (set_brightness_run maxRaw percent current none (some j)).flagAtExit = true := by
  rcases Nat.lt_or_ge (fullStepsOf (percent_to_internal maxRaw percent) current) j
    with hgt | hle
  · rw [set_brightness_run_fail_late _ _ _ _ hgt] at h
    simp at h
  · rw [set_brightness_run_err _ _ _ _ hle]
    simp [stepWrites_length]

/-- C3, amended, witness at a concrete input. -/
theorem set_brightness_write_failure_witness :
    (set_brightness_run 500 80 0 none (some 2)).errored = true ∧
    ((set_brightness_run 500 80 0 none (some 2)).writes.length = 2 ∧
     (set_brightness_run 500 80 0 none (some 2)).flagAtExit = true) :=
  ⟨by decide, set_brightness_write_failure 500 80 0 2 (by decide)⟩

/-- C6, counterexample: with zero full steps (target 10, current 0) the single
device write performed before the corrective-write check is the
fractional-remainder write, which already writes the target; the final
corrective write never executes, so the call does not proceed "directly to
the final corrective write". -/
theorem set_brightness_zero_steps_counterexample :
    fullStepsOf (percent_to_internal 1000 1) 0 = 0 ∧
    (set_brightness_run 1000 1 0 none none).writes = [(WriteKind.frac, 10)] := by decide

/-- C6, amended: when the full step count is zero and the call is not
cancelled, the loop body never executes and the call performs exactly one
device write, the fractional-remainder write, whose value is already the
target, so the final corrective write is skipped. -/
theorem set_brightness_zero_steps (maxRaw : ℤ) (percent : ℚ) (current : ℤ)
    (h : fullStepsOf (percent_to_internal maxRaw percent) current = 0) :
    (set_brightness_run maxRaw percent current none none).writes =
      [(WriteKind.frac, percent_to_internal maxRaw percent)] := by
  rw [set_brightness_run_none]
  simp [h, stepWrites]

/-- C6, amended, witness at a concrete input. -/
theorem set_brightness_zero_steps_witness :
    fullStepsOf (percent_to_internal 1000 2) 0 = 0 ∧
    (set_brightness_run 1000 2 0 none none).writes =
      [(WriteKind.frac, percent_to_internal 1000 2)] :=
  ⟨by decide, set_brightness_zero_steps 1000 2 0 (by decide)⟩

/-- C4: an observation differing from `_last_value` publishes and an
immediately repeated observation of the same raw value is suppressed, so two
successive equal observations yield exactly one notification; and because
`__init__` sets `_last_value` to the sentinel `-1`, distinct from every valid
raw value `v ≥ 0`, the first observation always publishes. -/
theorem publish_dedup (maxRaw v : ℤ) (s : WatcherState)
    (h1 : v ≠ s.last_value) (h2 : 0 ≤ v) :
    (processAll maxRaw s [v, v]).2.length = 1 ∧
    ((publish_brightness_changed maxRaw initWatcherState v).2).isSome = true := by
  constructor
  · simp [processAll, publish_brightness_changed, h1]
  · have h3 : v ≠ initWatcherState.last_value := by
      simp only [initWatcherState]
      omega
    simp [publish_brightness_changed, h3]

/-- C4, witness at a concrete input. -/
theorem publish_dedup_witness :
    (50 : ℤ) ≠ initWatcherState.last_value ∧ (0 : ℤ) ≤ 50 ∧
    ((processAll 100 initWatcherState [50, 50]).2.length = 1 ∧
     ((publish_brightness_changed 100 initWatcherState 50).2).isSome = true) :=
  ⟨by decide, by decide, publish_dedup 100 50 initWatcherState (by decide) (by decide)⟩

/-- C5, counterexample: in the state where the device already sits at the
requested target (`_last_value = _requested_value_internal = 50`) with the
actor still recorded, observing 50 is suppressed as a duplicate before the
attribution reset can run, so the actor is NOT cleared, and a subsequent
external change to 60 is published attributed to `some 7` instead of none. -/
theorem publish_attribution_counterexample :
    (publish_brightness_changed 100 ⟨some 7, 50, false, 50⟩ 50).1.publisher_id = some 7 ∧
    (processAll 100 ⟨some 7, 50, false, 50⟩ [50, 60]).2 = [(60, some 7)] := by decide

/-- C5, amended: for every PUBLISHED observation (raw value different from
`_last_value`) equal to the most recently recorded target, the watcher clears
the recorded actor, and a subsequent observation of a different raw value is
published with attribution none. -/
theorem publish_attribution_reset (maxRaw v w : ℤ) (s : WatcherState)
    (hpub : v ≠ s.last_value) (hreq : v = s.requested_value_internal) (hw : w ≠ v) :
    (publish_brightness_changed maxRaw s v).1.publisher_id = none ∧
    (publish_brightness_changed maxRaw (publish_brightness_changed maxRaw s v).1 w).2 =
      some (rawToPercent maxRaw w, none) := by
  have h1 : publish_brightness_changed maxRaw s v =
      ({ s with publisher_id := none, last_value := v },
       some (rawToPercent maxRaw v, s.publisher_id)) := by
    simp [publish_brightness_changed, hpub, if_pos hreq]
  rw [h1]
  refine ⟨rfl, ?_⟩
  simp [publish_brightness_changed, hw]

/-- C5, amended, witness at a concrete input. -/
theorem publish_attribution_reset_witness :
    ((50 : ℤ) ≠ (⟨some 7, 50, false, 40⟩ : WatcherState).last_value) ∧
    ((50 : ℤ) = (⟨some 7, 50, false, 40⟩ : WatcherState).requested_value_internal) ∧
    ((60 : ℤ) ≠ 50) ∧
    ((publish_brightness_changed 100 ⟨some 7, 50, false, 40⟩ 50).1.publisher_id = none ∧
     (publish_brightness_changed 100
        (publish_brightness_changed 100 ⟨some 7, 50, false, 40⟩ 50).1 60).2 =
       some (rawToPercent 100 60, none)) :=
  ⟨by decide, by decide, by decide,
    publish_attribution_reset 100 50 60 _ (by decide) (by decide) (by decide)⟩

/-- C10: an observation equal to `_last_value` leaves the watcher state
completely unchanged and publishes nothing; in particular, even when that
duplicate also equals the recorded target, the attribution reset does not run
and the recorded actor stays set. -/
theorem publish_duplicate_noop (maxRaw v : ℤ) (s : WatcherState) (h : v = s.last_value) :
    publish_brightness_changed maxRaw s v = (s, none) := by
  simp [publish_brightness_changed, h]

/-- C10, witness at a concrete input where the duplicate also equals the
recorded target and the actor remains recorded. -/
theorem publish_duplicate_noop_witness :
    (20 : ℤ) = (⟨some 3, 20, false, 20⟩ : WatcherState).last_value ∧
    publish_brightness_changed 100 ⟨some 3, 20, false, 20⟩ 20 =
      (⟨some 3, 20, false, 20⟩, none) :=
  ⟨rfl, publish_duplicate_noop 100 20 ⟨some 3, 20, false, 20⟩ rfl⟩

/-- Clamping never goes below 1. -/
lemma validate_ge_one (v : ℚ) : 1 ≤ validate_and_sanitize_brightness_value v := by
  unfold validate_and_sanitize_brightness_value
  split_ifs with h1 h2
  · exact le_refl 1
  · norm_num
  · linarith

/-- Clamping never goes above 100. -/
lemma validate_le_hundred (v : ℚ) : validate_and_sanitize_brightness_value v ≤ 100 := by
  unfold validate_and_sanitize_brightness_value
  split_ifs with h1 h2
  · norm_num
  · exact le_refl 100
  · linarith

/-- Clamping is monotone. -/
lemma validate_mono (v1 v2 : ℚ) (h : v1 ≤ v2) :
    validate_and_sanitize_brightness_value v1 ≤ validate_and_sanitize_brightness_value v2 := by
  unfold validate_and_sanitize_brightness_value
  split_ifs <;> linarith

/-- For a nonnegative maximum, `percent_to_internal` is the floor of the exact
rational `validated / 100 * max` (truncation and floor agree on nonnegative
values). -/
lemma percent_to_internal_eq_floor (maxRaw : ℤ) (hmax : 0 ≤ maxRaw) (p : ℚ) :
    percent_to_internal maxRaw p =
      ⌊validate_and_sanitize_brightness_value p / 100 * (maxRaw : ℚ)⌋ := by
  have hv1 : 1 ≤ validate_and_sanitize_brightness_value p := validate_ge_one p
  set v := validate_and_sanitize_brightness_value p with hv
  have hnum : 0 < v.num := Rat.num_pos.mpr (by linarith)
  have hden0 : ((v.den * 100 : ℕ) : ℚ) ≠ 0 := by
    exact_mod_cast Nat.mul_ne_zero v.den_pos.ne' (by norm_num)
  have hd : ((v.den : ℚ)) ≠ 0 := Nat.cast_ne_zero.mpr v.den_pos.ne'
  have hvd : v * (v.den : ℚ) = (v.num : ℚ) := by
    nth_rewrite 1 [← Rat.num_div_den v]
    exact div_mul_cancel₀ _ hd
  have hq : v / 100 * (maxRaw : ℚ) =
      ((v.num * maxRaw : ℤ) : ℚ) / ((v.den * 100 : ℕ) : ℚ) := by
    rw [eq_div_iff hden0]
    push_cast
    linear_combination (maxRaw : ℚ) * hvd
  show intFracTrunc (v.num * maxRaw) ((v.den : ℤ) * 100) = ⌊v / 100 * (maxRaw : ℚ)⌋
  rw [hq, Rat.floor_intCast_div_natCast]
  unfold intFracTrunc
  rw [if_pos (mul_nonneg (le_of_lt hnum) hmax)]
  push_cast
  rfl

/-- C7: for `max_raw > 0` and percent in `[1, 100]`, `percent_to_internal`
lies in `[0, max_raw]`, and it is monotone in the percentage over all numeric
inputs (clamping included). -/
theorem percent_to_raw_bounds_mono (maxRaw : ℤ) (hmax : 0 < maxRaw) (p p1 p2 : ℚ)
    (hp1 : 1 ≤ p) (hp2 : p ≤ 100) (h12 : p1 ≤ p2) :
    (0 ≤ percent_to_internal maxRaw p ∧ percent_to_internal maxRaw p ≤ maxRaw) ∧
    percent_to_internal maxRaw p1 ≤ percent_to_internal maxRaw p2 := by
  have h0 : (0 : ℚ) < (maxRaw : ℚ) := by exact_mod_cast hmax
  rw [percent_to_internal_eq_floor _ (le_of_lt hmax),
      percent_to_internal_eq_floor _ (le_of_lt hmax) p1,
      percent_to_internal_eq_floor _ (le_of_lt hmax) p2]
  have hvp : validate_and_sanitize_brightness_value p = p := by
    unfold validate_and_sanitize_brightness_value
    rw [if_neg (by linarith), if_neg (by linarith)]
  rw [hvp]
  refine ⟨⟨?_, ?_⟩, ?_⟩
  · refine Int.floor_nonneg.mpr (mul_nonneg (div_nonneg (by linarith) (by norm_num))
      (le_of_lt h0))
  · have hle : p / 100 * (maxRaw : ℚ) ≤ (maxRaw : ℚ) := by
      have h1 : p / 100 ≤ 1 := by linarith
      nlinarith
    calc ⌊p / 100 * (maxRaw : ℚ)⌋ ≤ ⌊((maxRaw : ℤ) : ℚ)⌋ := Int.floor_le_floor hle
      _ = maxRaw := Int.floor_intCast maxRaw
  · refine Int.floor_le_floor ?_
    have hm := validate_mono p1 p2 h12
    have hdiv : validate_and_sanitize_brightness_value p1 / 100 ≤
        validate_and_sanitize_brightness_value p2 / 100 := by linarith
    exact mul_le_mul_of_nonneg_right hdiv (le_of_lt h0)

/-- C7, witness at a concrete input. -/
theorem percent_to_raw_bounds_mono_witness :
    ((0 : ℤ) < 4882 ∧ (1 : ℚ) ≤ 50 ∧ (50 : ℚ) ≤ 100 ∧ (20 : ℚ) ≤ 60) ∧
    ((0 ≤ percent_to_internal 4882 50 ∧ percent_to_internal 4882 50 ≤ 4882) ∧
     percent_to_internal 4882 20 ≤ percent_to_internal 4882 60) :=
  ⟨⟨by decide, by decide, by decide, by decide⟩,
    percent_to_raw_bounds_mono 4882 (by decide) 50 20 60 (by decide) (by decide) (by decide)⟩

/-- C8: the clamp returns 1 below 1, 100 above 100, the value itself inside
`[1, 100]`, and never errors on a numeric (float) input. -/
theorem validate_clamps (v : ℚ) :
    (v < 1 → validate_and_sanitize_brightness_value v = 1) ∧
    (v > 100 → validate_and_sanitize_brightness_value v = 100) ∧
    (1 ≤ v → v ≤ 100 → validate_and_sanitize_brightness_value v = v) ∧
    validate_checked (PyValue.float v) = some (validate_and_sanitize_brightness_value v) := by
  refine ⟨?_, ?_, ?_, rfl⟩
  · intro h
    unfold validate_and_sanitize_brightness_value
    rw [if_pos h]
  · intro h
    unfold validate_and_sanitize_brightness_value
    rw [if_neg (by linarith), if_pos h]
  · intro h1 h2
    unfold validate_and_sanitize_brightness_value
    rw [if_neg (by linarith), if_neg (by linarith)]

/-- C8, witness at concrete inputs below, above and inside the range. -/
theorem validate_clamps_witness :
    validate_and_sanitize_brightness_value 0 = 1 ∧
    validate_and_sanitize_brightness_value 101 = 100 ∧
    validate_and_sanitize_brightness_value 50 = 50 :=
  ⟨(validate_clamps 0).1 (by decide),
   (validate_clamps 101).2.1 (by decide),
   (validate_clamps 50).2.2.1 (by decide) (by decide)⟩

/-- C9: a non-numeric input fails the `assert` in
`validate_and_sanitize_brightness_value` rather than returning a value, so
`percent_to_internal` and `set_brightness` reject it before any device
write. -/
theorem nonnumeric_rejected (maxRaw current : ℤ) (cancel failAt : Option ℕ) :
    validate_checked PyValue.other = none ∧
    percent_to_internal_checked maxRaw PyValue.other = none ∧
    set_brightness_checked maxRaw PyValue.other current cancel failAt = none :=
  ⟨rfl, rfl, rfl⟩

end DeskConn
